import Mathlib

/-!
Shallow embedding of the OpenID Connect provider core
(`src/pyop/provider.py`) and proofs about its behaviour.

Python dictionaries holding JSON values (request `claims` parameters,
ID-Token payloads, user-claim maps) are modelled by the mutual
inductives `JVal`/`JObj`.  A Python dict lookup `d[k]` that can raise
`KeyError` is modelled by `Option`-valued access plus the `PErr` error
type; functions that can raise return `Except PErr _`.
-/

mutual

/-- A JSON value as stored in a Python dict (claims parameters,
ID-Token payload entries, user claims). -/
inductive JVal where
  | jnull : JVal
  | jbool : Bool → JVal
  | jnum : Nat → JVal
  | jstr : String → JVal
  | jobj : JObj → JVal

/-- A Python dict with string keys and JSON values, as an ordered
association list (Python dicts preserve insertion order). -/
inductive JObj where
  | onil : JObj
  | ocons : String → JVal → JObj → JObj

end

deriving instance DecidableEq for JVal
deriving instance DecidableEq for JObj
deriving instance Repr for JVal
deriving instance Repr for JObj
deriving instance DecidableEq for Except

/-- Dict lookup: `d.get(k)` / `k in d`. -/
def JObj.get? : JObj → String → Option JVal
  | .onil, _ => none
  | .ocons k v rest, key => if k = key then some v else rest.get? key

/-- Key-presence test: `k in d`. -/
def JObj.hasKey (d : JObj) (key : String) : Bool :=
  (d.get? key).isSome

/-- Dict assignment `d[k] = v`: replaces an existing binding in place,
otherwise appends at the end (Python insertion-order semantics). -/
def JObj.set : JObj → String → JVal → JObj
  | .onil, key, val => .ocons key val .onil
  | .ocons k v rest, key, val =>
      if k = key then .ocons k val rest else .ocons k v (rest.set key val)

/-- `d.update(u)`: merge `u` into `d`, entries of `u` winning. -/
def JObj.update : JObj → JObj → JObj
  | d, .onil => d
  | d, .ocons k v rest => (d.set k v).update rest

/-- Number of entries (`len(d)`); duplicates of a key all count, but
dicts built with `set`/`update` never contain duplicates. -/
def JObj.size : JObj → Nat
  | .onil => 0
  | .ocons _ _ rest => rest.size + 1

/-- Python truthiness of a dict: the empty dict is falsy. -/
def JObj.truthy : JObj → Bool
  | .onil => false
  | .ocons _ _ _ => true

mutual

/-- Python `==` on JSON values.  Dict comparison is key-based
(insertion order is ignored): equal sizes and every entry of the first
dict matched in the second.  For dicts without duplicate keys this is
Python's dict equality. -/
def pyJEq : JVal → JVal → Bool
  | .jnull, .jnull => true
  | .jbool a, .jbool b => a = b
  | .jnum a, .jnum b => a = b
  | .jstr a, .jstr b => a = b
  | .jobj a, .jobj b => a.size = b.size && JObj.entriesMatch a b
  | _, _ => false

/-- Every entry of the first dict is present with a `pyJEq`-equal value
in the second dict. -/
def JObj.entriesMatch : JObj → JObj → Bool
  | .onil, _ => true
  | .ocons k v rest, d =>
      (match d.get? k with
       | some w => pyJEq v w
       | none => false) && JObj.entriesMatch rest d

end

/-- Python truthiness of a JSON value (`None`, `False`, `0`, `''` and
`{}` are falsy). -/
def JVal.truthy : JVal → Bool
  | .jnull => false
  | .jbool b => b
  | .jnum n => n ≠ 0
  | .jstr s => s ≠ ""
  | .jobj d => d.truthy

/-- Python truthiness of an optional JSON value (`None` is falsy). -/
def optJTruthy : Option JVal → Bool
  | none => false
  | some v => v.truthy

/-- Python truthiness of an optional string (`None` and `''` are falsy). -/
def optStrTruthy : Option String → Bool
  | none => false
  | some s => s ≠ ""

/-- Python `a or b` on two optional JSON values with `None` for
"absent": returns the first operand when truthy, else the second. -/
def pyOr (a b : Option JVal) : Option JVal :=
  if optJTruthy a then a else b

/-- All keys of a dict. -/
def JObj.keys : JObj → List String
  | .onil => []
  | .ocons k _ rest => k :: rest.keys

/-- A parsed authentication request (`oic.oic.message.AuthorizationRequest`).
Each field is `none` when the corresponding parameter is absent;
indexing an absent parameter raises `KeyError`. -/
structure AuthnReq where
  client_id : Option String := none
  redirect_uri : Option String := none
  response_type : Option (List String) := none
  scope : Option (List String) := none
  state : Option String := none
  nonce : Option String := none
  claims : Option JObj := none
deriving DecidableEq, Repr

/-- The data carried by an `InvalidAuthenticationRequest` exception. -/
structure InvalidAuthnReq where
  message : String
  request : AuthnReq
  oauth_error : Option String := none
deriving DecidableEq, Repr

/-- The Python exceptions the provider core can raise. -/
inductive PErr where
  | keyError : PErr
  | indexError : PErr
  | typeError : PErr
  | invalidAuthn : InvalidAuthnReq → PErr
  | authorizationError : String → PErr
  | invalidTokenRequest : String → String → PErr
  | invalidUserinfoRequest : String → PErr
  | bearerTokenError : PErr
deriving DecidableEq, Repr

/-- `should_fragment_encode`: query encoding exactly when the
`response_type` list equals `['code']`; indexes the parameter, so a
request without `response_type` raises `KeyError`. -/
def should_fragment_encode (authentication_request : AuthnReq) : Except PErr Bool :=
  match authentication_request.response_type with
  | none => .error .keyError
  | some rt => if rt = ["code"] then .ok false else .ok true

/-- The redirect-back error URL built by `ErrorResponse.request`,
represented structurally: base redirect URI, fragment-vs-query flag and
the two carried parameters. -/
structure ErrorUrl where
  redirect_uri : String
  use_fragment : Bool
  error : String
  error_message : String
deriving DecidableEq, Repr

/-- `InvalidAuthenticationRequest.to_error_url`: builds a redirect-back
URL when both `redirect_uri` and `oauth_error` are truthy, else returns
`None`.  Building the URL evaluates `should_fragment_encode`, which
indexes `response_type`. -/
def InvalidAuthnReq.to_error_url (e : InvalidAuthnReq) : Except PErr (Option ErrorUrl) :=
  match e.request.redirect_uri, e.oauth_error with
  | some redirect_uri, some oauth_error =>
      if redirect_uri ≠ "" ∧ oauth_error ≠ "" then
        match should_fragment_encode e.request with
        | .error err => .error err
        | .ok frag =>
            .ok (some { redirect_uri := redirect_uri, use_fragment := frag,
                        error := oauth_error, error_message := e.message })
      else .ok none
  | _, _ => .ok none

/-- Registered client metadata.  `redirect_uris`/`response_types` are
`Option` because the validators guard against client entries missing
these keys (they catch the `KeyError`). -/
structure ClientMetadata where
  redirect_uris : Option (List String) := none
  response_types : Option (List (List String)) := none
  subject_type : Option String := none
  id_token_signed_response_alg : Option String := none
deriving DecidableEq, Repr

/-- Provider configuration after `Provider.__init__` has applied its
defaults for the three listed keys. -/
structure ProviderConf where
  issuer : String
  subject_types_supported : List String := ["pairwise"]
  id_token_signing_alg_values_supported : List String := ["RS256"]
  scopes_supported : List String := ["openid"]
deriving DecidableEq, Repr

/-- The provider instance.  `leftHash` stands for `jws.left_hash` from
the jwkest library (left half of the digest, base64url-encoded): its
value is opaque to every property proved here, only its presence in
the payload matters, so it is carried as an external function of the
input string and the hash algorithm name. -/
structure Provider where
  conf : ProviderConf
  clients : List (String × ClientMetadata)
  id_token_lifetime : Nat := 3600
  leftHash : String → String → String

/-- `provider.clients[client_id]` as an optional lookup. -/
def lookupClient (clients : List (String × ClientMetadata)) (client_id : String) :
    Option ClientMetadata :=
  (clients.lookup client_id)

/-- Order-insensitive list comparison, `frozenset(a) == frozenset(b)`. -/
def listSetEq (a b : List String) : Bool :=
  a.all (fun x => x ∈ b) && b.all (fun x => x ∈ a)

/-- Modelled from the spec: `oic.oic.message.AuthorizationRequest.verify`
(third-party library code, not part of this repository).  Checks the
required parameters `response_type`, `client_id`, `redirect_uri` and
`scope` (which must contain `openid`); the provider wraps its failures
as `InvalidAuthenticationRequest` with `oauth_error='invalid_request'`. -/
def authorization_request_verify (authentication_request : AuthnReq) : Except PErr Unit :=
  if authentication_request.response_type.isNone ||
     authentication_request.client_id.isNone ||
     authentication_request.redirect_uri.isNone ||
     authentication_request.scope.isNone ||
     !(authentication_request.scope.getD []).contains "openid" then
    .error (.invalidAuthn { message := "missing required attribute",
                            request := authentication_request,
                            oauth_error := some "invalid_request" })
  else
    .ok ()

/-- `_client_id_is_known`: the `client_id` must exist in the registry. -/
def client_id_is_known (provider : Provider) (authentication_request : AuthnReq) :
    Except PErr Unit :=
  match authentication_request.client_id with
  | none => .error .keyError
  | some client_id =>
      if (lookupClient provider.clients client_id).isSome then .ok ()
      else .error (.invalidAuthn { message := "Unknown client_id",
                                   request := authentication_request,
                                   oauth_error := some "unauthorized_client" })

/-- `_redirect_uri_is_in_registered_redirect_uris`: the requested
`redirect_uri` must be one of the client's registered redirect URIs.
The error carries no `oauth_error`.  A missing `redirect_uri` parameter
raises `KeyError` (it is indexed while formatting the error message);
a `KeyError` from the client/metadata lookups is caught and surfaced as
the same `InvalidAuthenticationRequest`. -/
def redirect_uri_is_in_registered_redirect_uris (provider : Provider)
    (authentication_request : AuthnReq) : Except PErr Unit :=
  match authentication_request.redirect_uri with
  | none => .error .keyError
  | some redirect_uri =>
      let error : PErr := .invalidAuthn { message := "Redirect uri is not registered",
                                          request := authentication_request }
      match authentication_request.client_id with
      | none => .error error
      | some client_id =>
          match lookupClient provider.clients client_id with
          | none => .error error
          | some meta =>
              match meta.redirect_uris with
              | none => .error error
              | some allowed_redirect_uris =>
                  if redirect_uri ∈ allowed_redirect_uris then .ok () else .error error

/-- `_response_type_is_in_registered_response_types`: the requested
response-type set must equal (as a frozenset) one of the client's
registered response types.  A missing `response_type` parameter raises
`KeyError`; a `KeyError` from the metadata lookups is caught. -/
def response_type_is_in_registered_response_types (provider : Provider)
    (authentication_request : AuthnReq) : Except PErr Unit :=
  match authentication_request.response_type with
  | none => .error .keyError
  | some response_type =>
      let error : PErr := .invalidAuthn { message := "Response type is not registered",
                                          request := authentication_request,
                                          oauth_error := some "invalid_request" }
      match authentication_request.client_id with
      | none => .error error
      | some client_id =>
          match lookupClient provider.clients client_id with
          | none => .error error
          | some meta =>
              match meta.response_types with
              | none => .error error
              | some allowed_response_types =>
                  if allowed_response_types.any (fun rt => listSetEq response_type rt) then
                    .ok ()
                  else .error error

/-- `'claims' in request and 'userinfo' in request['claims']`. -/
def contains_userinfo_claims_request (authentication_request : AuthnReq) : Bool :=
  match authentication_request.claims with
  | none => false
  | some claims => claims.hasKey "userinfo"

/-- `_userinfo_claims_only_specified_when_access_token_is_issued`:
when the `response_type` list equals `['id_token']` no access token
will be issued, so requesting userinfo claims is invalid. -/
def userinfo_claims_only_specified_when_access_token_is_issued
    (authentication_request : AuthnReq) : Except PErr Unit :=
  match authentication_request.response_type with
  | none => .error .keyError
  | some response_type =>
      let will_issue_access_token := response_type ≠ ["id_token"]
      if !will_issue_access_token && contains_userinfo_claims_request authentication_request then
        .error (.invalidAuthn { message := "Userinfo claims cannot be requested, when response_type is id_token",
                                request := authentication_request,
                                oauth_error := some "invalid_request" })
      else .ok ()

/-- `_requested_scope_is_supported`: every requested scope must be in
`scopes_supported`. -/
def requested_scope_is_supported (provider : Provider)
    (authentication_request : AuthnReq) : Except PErr Unit :=
  match authentication_request.scope with
  | none => .error .keyError
  | some requested_scopes =>
      let requested_unsupported_scopes :=
        requested_scopes.filter (fun s => s ∉ provider.conf.scopes_supported)
      if requested_unsupported_scopes ≠ [] then
        .error (.invalidAuthn { message := "Request contains unsupported/unknown scopes",
                                request := authentication_request,
                                oauth_error := some "invalid_scope" })
      else .ok ()

/-- The validator pipeline assembled in `Provider.__init__`, in source
order. -/
def authentication_request_validators (provider : Provider) :
    List (AuthnReq → Except PErr Unit) :=
  [authorization_request_verify,
   client_id_is_known provider,
   redirect_uri_is_in_registered_redirect_uris provider,
   response_type_is_in_registered_response_types provider,
   userinfo_claims_only_specified_when_access_token_is_issued,
   requested_scope_is_supported provider]

/-- Run validators in order, stopping at the first failure. -/
def runValidators (validators : List (AuthnReq → Except PErr Unit))
    (authentication_request : AuthnReq) : Except PErr Unit :=
  match validators with
  | [] => .ok ()
  | v :: rest =>
      match v authentication_request with
      | .error e => .error e
      | .ok _ => runValidators rest authentication_request

/-- `Provider.parse_authentication_request` after deserialization: run
the validator pipeline over the parsed request and return it. -/
def parse_authentication_request (provider : Provider)
    (auth_req : AuthnReq) : Except PErr AuthnReq :=
  match runValidators (authentication_request_validators provider) auth_req with
  | .error e => .error e
  | .ok _ => .ok auth_req

/-- An access token handed out by the authorization state. -/
structure AccessToken where
  value : String
  type : String
  expires_in : Nat
deriving DecidableEq, Repr

/-- The result of introspecting an access token. -/
structure Introspection where
  active : Bool
  scope : String
  sub : String
deriving DecidableEq, Repr

/-- The external `AuthorizationState` collaborator, as pure functions.
Operations that look up previously stored data return `Option`; `none`
models the store raising for an unknown key. -/
structure AuthzState where
  get_subject_identifier : String → String → String → String
  create_authorization_code : AuthnReq → String → String
  create_access_token : AuthnReq → String → AccessToken
  get_authorization_request_for_code : String → Option AuthnReq
  get_subject_identifier_for_code : String → Option String
  get_user_id_for_subject_identifier : String → Option String
  exchange_code_for_token : String → Option AccessToken
  create_refresh_token : String → String
  introspect_access_token : String → Option Introspection
  get_authorization_request_for_access_token : String → Option AuthnReq

/-- The external user-info collaborator: local user id and requested
claims to claim values. -/
structure Userinfo where
  get_claims_for : String → JObj → JObj

/-- `urlparse(url).netloc` (Python standard library, external to this
repository): the authority component, i.e. what follows `//` up to the
next `/`, `?` or `#`; empty when the URL has no `//`. -/
def netloc (url : String) : String :=
  match url.splitOn "//" with
  | _ :: rest :: _ => rest.takeWhile (fun c => c ≠ '/' && c ≠ '?' && c ≠ '#')
  | _ => ""

/-- `Provider._create_subject_identifier`: subject type from client
metadata (default: first supported subject type), sector identifier
from the redirect URI's host, subject identifier from the
authorization state. -/
def create_subject_identifier (provider : Provider) (authz_state : AuthzState)
    (user_id client_id redirect_uri : String) : Except PErr String :=
  match provider.conf.subject_types_supported with
  | [] => .error .indexError
  | supported_subject_type :: _ =>
      match lookupClient provider.clients client_id with
      | none => .error .keyError
      | some meta =>
          let subject_type := meta.subject_type.getD supported_subject_type
          let sector_identifier := netloc redirect_uri
          .ok (authz_state.get_subject_identifier subject_type user_id sector_identifier)

/-- `request['claims'].get(method, {}).get('sub')`: the raw claims-request
entry for `sub` under the given response method.  A non-dict value for
the method yields no entry. -/
def claimsSubRequest (claims : JObj) (response_method : String) : Option JVal :=
  match claims.get? response_method with
  | some (.jobj m) => m.get? "sub"
  | _ => none

/-- `Provider._check_subject_identifier_matches_requested`: compares the
derived subject identifier against any `sub` entry of the `claims`
request parameter.  Note that the source compares the raw claims-request
entries themselves (for the standard OIDC encoding these are objects
like `{"value": "X"}`) with each other and with the subject-identifier
string. -/
def check_subject_identifier_matches_requested (authentication_request : AuthnReq)
    (sub : String) : Except PErr Unit :=
  match authentication_request.claims with
  | none => .ok ()
  | some claims =>
      let requested_id_token_sub := claimsSubRequest claims "id_token"
      let requested_userinfo_sub := claimsSubRequest claims "userinfo"
      let bothPresentAndDiffer :=
        match requested_id_token_sub, requested_userinfo_sub with
        | some a, some b => a.truthy && b.truthy && !pyJEq a b
        | _, _ => false
      if bothPresentAndDiffer then
        .error (.authorizationError "Requested different subject identifier for IDToken and userinfo")
      else
        let requested_sub := pyOr requested_id_token_sub requested_userinfo_sub
        match requested_sub with
        | some v =>
            if v.truthy && !pyJEq (.jstr sub) v then
              .error (.authorizationError "Requested subject identifier could not be matched")
            else .ok ()
        | none => .ok ()

/-- `Provider._get_requested_claims_in`: the claims requested under
`id_token` or `userinfo` in the `claims` request parameter, normalized
into a fresh dict. -/
def get_requested_claims_in (authentication_request : AuthnReq)
    (response_method : String) : JObj :=
  match authentication_request.claims with
  | none => .onil
  | some claims =>
      match claims.get? response_method with
      | some (.jobj m) => JObj.onil.update m
      | _ => .onil

/-- Claim names for one scope value, per the standard OIDC mapping
(`oic.oic.scope2claims`, third-party library code).  Modelled from the
spec: standard OIDC scope-to-claims mapping for `profile`, `email`,
`address`, `phone` (plus `openid` and `offline_access` as in the
library); unknown scopes contribute nothing. -/
def scopeToClaimNames : String → List String
  | "openid" => ["sub"]
  | "profile" => ["name", "given_name", "family_name", "middle_name", "nickname",
                  "profile", "picture", "website", "gender", "birthdate", "zoneinfo",
                  "locale", "updated_at", "preferred_username"]
  | "email" => ["email", "email_verified"]
  | "address" => ["address"]
  | "phone" => ["phone_number", "phone_number_verified"]
  | "offline_access" => ["offline_access"]
  | _ => []

/-- `scope2claims`: requested-claims dict derived from a list of scope
values; every derived claim maps to `None`. -/
def scope2claims (scopes : List String) : JObj :=
  scopes.foldl
    (fun acc s => acc.update ((scopeToClaimNames s).foldl (fun d c => d.set c .jnull) .onil))
    .onil

/-- A signed ID Token.  The JWS signature produced by `IdToken.to_jwt`
is opaque to every property proved here, so the token is represented by
its payload and signing algorithm. -/
structure SignedIdToken where
  payload : JObj
  alg : String
deriving DecidableEq, Repr

/-- The `args` dict assembled by `_create_signed_id_token` before the
`IdToken` constructor is invoked: the computed `c_hash`/`at_hash`
entries (for a truthy code / access-token value), updated with the
user claims and then the extra claims. -/
def id_token_kwargs (provider : Provider) (hash_alg : String) (user_claims : JObj)
    (authorization_code : Option String) (access_token_value : Option String)
    (extra_id_token_claims : JObj) : JObj :=
  let args0 : JObj := .onil
  let args1 :=
    if optStrTruthy authorization_code then
      args0.set "c_hash" (.jstr (provider.leftHash (authorization_code.getD "") hash_alg))
    else args0
  let args2 :=
    if optStrTruthy access_token_value then
      args1.set "at_hash" (.jstr (provider.leftHash (access_token_value.getD "") hash_alg))
    else args1
  (args2.update user_claims).update extra_id_token_claims

/-- `Provider._create_signed_id_token`.  The two `time.time()` readings
taken while building the payload (one for `iat`, one for `exp`) are the
parameters `t1` and `t2`.  Passing a reserved constructor key through
`user_claims`/`extra_id_token_claims` raises `TypeError` exactly as
`IdToken(iss=..., **args)` does. -/
def create_signed_id_token (provider : Provider) (client_id sub : String)
    (user_claims : JObj) (nonce : Option String)
    (authorization_code : Option String) (access_token_value : Option String)
    (extra_id_token_claims : JObj) (t1 t2 : Nat) : Except PErr SignedIdToken :=
  match lookupClient provider.clients client_id with
  | none => .error .keyError
  | some meta =>
      match provider.conf.id_token_signing_alg_values_supported with
      | [] => .error .indexError
      | default_alg :: _ =>
          let alg := meta.id_token_signed_response_alg.getD default_alg
          let hash_alg := "HS" ++ (alg.drop (alg.length - 3))
          let args := id_token_kwargs provider hash_alg user_claims authorization_code
            access_token_value extra_id_token_claims
          if ["iss", "sub", "aud", "iat", "exp"].any (fun k => args.hasKey k) then
            .error .typeError
          else
            let base : JObj :=
              .ocons "iss" (.jstr provider.conf.issuer)
                (.ocons "sub" (.jstr sub)
                  (.ocons "aud" (.jstr client_id)
                    (.ocons "iat" (.jnum t1)
                      (.ocons "exp" (.jnum (t2 + provider.id_token_lifetime)) .onil))))
            let payload0 := base.update args
            let payload :=
              if optStrTruthy nonce then payload0.set "nonce" (.jstr (nonce.getD ""))
              else payload0
            .ok { payload := payload, alg := alg }

/-- The `extra_id_token_claims` argument: absent, a claims map, or a
callable invoked with the user id and client id. -/
inductive ExtraClaims where
  | noneE : ExtraClaims
  | mapE : JObj → ExtraClaims
  | callableE : (String → String → JObj) → ExtraClaims

/-- Resolution of `extra_id_token_claims` as done by `authorize` and
`_do_code_exchange`: `None` becomes `{}`, a callable is invoked with
`(user_id, client_id)`, a map is used as-is. -/
def resolve_extra (extra : ExtraClaims) (user_id client_id : String) : JObj :=
  match extra with
  | .noneE => .onil
  | .mapE m => m
  | .callableE f => f user_id client_id

/-- The authorization response under construction. -/
structure AuthzResponse where
  code : Option String := none
  access_token : Option String := none
  token_type : Option String := none
  expires_in : Option Nat := none
  id_token : Option SignedIdToken := none
  state : Option String := none
deriving DecidableEq, Repr

/-- `Provider._add_access_token_to_response`. -/
def add_access_token_to_response (response : AuthzResponse) (access_token : AccessToken) :
    AuthzResponse :=
  { response with access_token := some access_token.value,
                  token_type := some access_token.type,
                  expires_in := some access_token.expires_in }

/-- `Provider.authorize`: derive the subject identifier, check it
against any requested `sub`, then issue a code, an access token and an
ID Token according to the `response_type`, echoing `state`.  `t1`/`t2`
are the two `time.time()` readings taken while minting the ID Token. -/
def authorize (provider : Provider) (authz_state : AuthzState) (userinfo : Userinfo)
    (authentication_request : AuthnReq) (user_id : String) (extra : ExtraClaims)
    (t1 t2 : Nat) : Except PErr AuthzResponse :=
  match authentication_request.client_id with
  | none => .error .keyError
  | some client_id =>
      match authentication_request.redirect_uri with
      | none => .error .keyError
      | some redirect_uri =>
          match create_subject_identifier provider authz_state user_id client_id redirect_uri with
          | .error e => .error e
          | .ok sub =>
              match check_subject_identifier_matches_requested authentication_request sub with
              | .error e => .error e
              | .ok _ =>
                  match authentication_request.response_type with
                  | none => .error .keyError
                  | some response_type =>
                      let authz_code :=
                        if "code" ∈ response_type then
                          some (authz_state.create_authorization_code authentication_request sub)
                        else none
                      let access_token :=
                        if "token" ∈ response_type then
                          some (authz_state.create_access_token authentication_request sub)
                        else none
                      let response0 : AuthzResponse := { code := authz_code }
                      let response1 :=
                        match access_token with
                        | some tok => add_access_token_to_response response0 tok
                        | none => response0
                      let withState := fun (r : AuthzResponse) =>
                        if authentication_request.state.isSome then
                          { r with state := authentication_request.state }
                        else r
                      if "id_token" ∈ response_type then
                        let extra_claims := resolve_extra extra user_id client_id
                        let requested0 := get_requested_claims_in authentication_request "id_token"
                        let requestedE : Except PErr JObj :=
                          if response_type.length = 1 then
                            match authentication_request.scope with
                            | none => .error .keyError
                            | some sc => .ok (requested0.update (scope2claims sc))
                          else .ok requested0
                        match requestedE with
                        | .error e => .error e
                        | .ok requested_claims =>
                            let user_claims := userinfo.get_claims_for user_id requested_claims
                            match create_signed_id_token provider client_id sub user_claims
                                    authentication_request.nonce authz_code
                                    (access_token.map (fun tok => tok.value))
                                    extra_claims t1 t2 with
                            | .error e => .error e
                            | .ok idt =>
                                .ok (withState { response1 with id_token := some idt })
                      else
                        .ok (withState response1)

/-- A parsed token request (`oic.oic.message.AccessTokenRequest` /
`RefreshAccessTokenRequest` fields used by the handlers). -/
structure TokenReq where
  grant_type : Option String := none
  code : Option String := none
  redirect_uri : Option String := none
  client_id : Option String := none
  refresh_token : Option String := none
  scope : Option String := none
deriving DecidableEq, Repr

/-- Modelled from the spec: `AccessTokenRequest.verify` (third-party
library code, not part of this repository).  The spec requires `code`,
`redirect_uri` and `client_id`; a failure is wrapped as
`InvalidTokenRequest` with the default `oauth_error='invalid_request'`. -/
def token_request_verify (token_request : TokenReq) : Except PErr Unit :=
  if token_request.code.isNone || token_request.redirect_uri.isNone ||
     token_request.client_id.isNone then
    .error (.invalidTokenRequest "missing required attribute" "invalid_request")
  else .ok ()

/-- Calls made to the `AuthorizationState` collaborator, recorded in
order as the code exchange runs. -/
inductive Effect where
  | getAuthorizationRequestForCode : String → Effect
  | getSubjectIdentifierForCode : String → Effect
  | getUserIdForSubjectIdentifier : String → Effect
  | exchangeCodeForToken : String → Effect
  | createRefreshToken : String → Effect
deriving DecidableEq, Repr

/-- The token endpoint response for the authorization-code grant. -/
structure TokenResponse where
  access_token : String
  token_type : String
  expires_in : Nat
  refresh_token : String
  id_token : SignedIdToken
deriving DecidableEq, Repr

/-- `Provider._do_code_exchange`, returning the result together with
the ordered trace of `AuthorizationState` calls it performed.  The
`redirect_uri` of the token request is compared byte-exactly with the
one of the original authorization request before anything else is
done with the code. -/
def do_code_exchange (provider : Provider) (authz_state : AuthzState)
    (userinfo : Userinfo) (request : TokenReq) (extra : ExtraClaims)
    (t1 t2 : Nat) : Except PErr TokenResponse × List Effect :=
  match token_request_verify request with
  | .error e => (.error e, [])
  | .ok _ =>
      match request.code, request.redirect_uri with
      | some code, some token_redirect_uri =>
          let trace1 := [Effect.getAuthorizationRequestForCode code]
          match authz_state.get_authorization_request_for_code code with
          | none => (.error .keyError, trace1)
          | some authentication_request =>
              match authentication_request.redirect_uri with
              | none => (.error .keyError, trace1)
              | some original_redirect_uri =>
                  if token_redirect_uri ≠ original_redirect_uri then
                    (.error (.invalidTokenRequest "Invalid redirect_uri" "invalid_request"),
                     trace1)
                  else
                    let trace2 := trace1 ++ [Effect.getSubjectIdentifierForCode code]
                    match authz_state.get_subject_identifier_for_code code with
                    | none => (.error .keyError, trace2)
                    | some sub =>
                        let trace3 := trace2 ++ [Effect.getUserIdForSubjectIdentifier sub]
                        match authz_state.get_user_id_for_subject_identifier sub with
                        | none => (.error .keyError, trace3)
                        | some user_id =>
                            let trace4 := trace3 ++ [Effect.exchangeCodeForToken code]
                            match authz_state.exchange_code_for_token code with
                            | none => (.error .keyError, trace4)
                            | some access_token =>
                                let refresh_token :=
                                  authz_state.create_refresh_token access_token.value
                                let trace5 := trace4 ++ [Effect.createRefreshToken access_token.value]
                                match authentication_request.client_id with
                                | none => (.error .keyError, trace5)
                                | some original_client_id =>
                                    let extra_claims := resolve_extra extra user_id original_client_id
                                    let requested_claims :=
                                      get_requested_claims_in authentication_request "id_token"
                                    let user_claims :=
                                      userinfo.get_claims_for user_id requested_claims
                                    match create_signed_id_token provider original_client_id sub
                                            user_claims authentication_request.nonce none
                                            (some access_token.value) extra_claims t1 t2 with
                                    | .error e => (.error e, trace5)
                                    | .ok idt =>
                                        (.ok { access_token := access_token.value,
                                               token_type := access_token.type,
                                               expires_in := access_token.expires_in,
                                               refresh_token := refresh_token,
                                               id_token := idt },
                                         trace5)
      | _, _ => (.error .keyError, [])

/-- Modelled from the spec: `extract_bearer_token_from_http_request`
(this repository's `access_token` module, not included under `src/`):
the bearer token comes from the `Authorization: Bearer` header or from
the `access_token` parameter; if neither or both are present the
request fails with `BearerTokenError`. -/
def extract_bearer_token_from_http_request (access_token_param : Option String)
    (authorization_header : Option String) : Except PErr String :=
  match authorization_header, access_token_param with
  | some header, none =>
      if header.toList.take 7 = "Bearer ".toList then
        .ok (String.mk (header.toList.drop 7))
      else .error .bearerTokenError
  | none, some param => .ok param
  | _, _ => .error .bearerTokenError

/-- Python `str.split()` on whitespace, dropping empty fields. -/
def pySplitWhitespace (s : String) : List String :=
  (s.split (fun c => c = ' ' || c = '\t' || c = '\n' || c = '\r')).filter (fun t => t ≠ "")

/-- The claims requested from the user-info source by
`handle_userinfo_request`: the scope-derived claims updated with the
`claims.userinfo` entries of the original authorization request. -/
def userinfo_requested_claims (scope : String) (authentication_request : AuthnReq) : JObj :=
  (scope2claims (pySplitWhitespace scope)).update
    (get_requested_claims_in authentication_request "userinfo")

/-- The userinfo response (`OpenIDSchema(sub=..., **user_claims)`). -/
structure UserinfoResponse where
  sub : String
  claims : JObj
deriving DecidableEq, Repr

/-- `Provider.handle_userinfo_request`: introspect the bearer token,
reject inactive tokens, derive the requested claims from the token's
scope and the original request's `claims.userinfo`, fetch the user
claims and return them under the introspected `sub`.  A user-claim map
already containing `sub` would make the `OpenIDSchema` constructor
raise (`sub` passed twice). -/
def handle_userinfo_request (_provider : Provider) (authz_state : AuthzState)
    (userinfo : Userinfo) (request : Option String)
    (authorization_header : Option String) : Except PErr UserinfoResponse :=
  match extract_bearer_token_from_http_request request authorization_header with
  | .error e => .error e
  | .ok bearer_token =>
      match authz_state.introspect_access_token bearer_token with
      | none => .error .keyError
      | some introspection =>
          if !introspection.active then
            .error (.invalidUserinfoRequest "The access token has expired")
          else
            match authz_state.get_user_id_for_subject_identifier introspection.sub with
            | none => .error .keyError
            | some user_id =>
                match authz_state.get_authorization_request_for_access_token bearer_token with
                | none => .error .keyError
                | some authentication_request =>
                    let requested_claims :=
                      userinfo_requested_claims introspection.scope authentication_request
                    let user_claims := userinfo.get_claims_for user_id requested_claims
                    if user_claims.hasKey "sub" then .error .typeError
                    else .ok { sub := introspection.sub, claims := user_claims }

/-- The spec's side condition "the redirect URI is registered for the
client", stated as the specification words it (client looked up by the
parsed request's `client_id`, redirect URI among its registered
`redirect_uris`).  This definition follows the spec, not the source:
it exists to compare the spec's claimed behaviour of `to_error_url`
with the source's actual behaviour. -/
def spec_redirect_uri_registered (clients : List (String × ClientMetadata))
    (authentication_request : AuthnReq) : Bool :=
  match authentication_request.client_id, authentication_request.redirect_uri with
  | some client_id, some redirect_uri =>
      match lookupClient clients client_id with
      | some meta => redirect_uri ∈ meta.redirect_uris.getD []
      | none => false
  | _, _ => false

/-- No reserved ID-Token payload key that the source sets outside the
`IdToken` constructor is present: hypotheses of this shape keep the
collaborator-supplied claim maps from overriding `nonce`, `c_hash` or
`at_hash`. -/
def reservedIdTokenKeysFree (d : JObj) : Prop :=
  d.get? "nonce" = none ∧ d.get? "c_hash" = none ∧ d.get? "at_hash" = none

instance (d : JObj) : Decidable (reservedIdTokenKeysFree d) := by
  unfold reservedIdTokenKeysFree; infer_instance

/-- A concrete client registry used by witnesses: one client with one
registered redirect URI and several registered response types. -/
def exampleClients : List (String × ClientMetadata) :=
  [("c1", { redirect_uris := some ["https://rp.example.com/cb"],
            response_types := some [["code"], ["id_token"], ["code", "id_token"]] })]

/-- A concrete provider used by witnesses. -/
def exampleProvider : Provider :=
  { conf := { issuer := "https://op.example.com" },
    clients := exampleClients,
    leftHash := fun _ _ => "LH" }

/-- The authorization request stored for code `AC1` / token `AT1` in
the concrete authorization state. -/
def exampleStoredReq : AuthnReq :=
  { client_id := some "c1",
    redirect_uri := some "https://rp.example.com/cb",
    response_type := some ["code"],
    scope := some ["openid"],
    nonce := some "n1",
    claims := some (JObj.ocons "userinfo" (.jobj (JObj.ocons "email" .jnull .onil)) .onil) }

/-- A concrete authorization state used by witnesses. -/
def exampleState : AuthzState :=
  { get_subject_identifier := fun _ _ _ => "sub1",
    create_authorization_code := fun _ _ => "AC1",
    create_access_token := fun _ _ => { value := "AT1", type := "Bearer", expires_in := 3600 },
    get_authorization_request_for_code := fun c => if c = "AC1" then some exampleStoredReq else none,
    get_subject_identifier_for_code := fun c => if c = "AC1" then some "sub1" else none,
    get_user_id_for_subject_identifier := fun s => if s = "sub1" then some "user1" else none,
    exchange_code_for_token := fun c =>
      if c = "AC1" then some { value := "AT2", type := "Bearer", expires_in := 3600 } else none,
    create_refresh_token := fun _ => "RT1",
    introspect_access_token := fun t =>
      if t = "AT1" then some { active := true, scope := "openid email", sub := "sub1" } else none,
    get_authorization_request_for_access_token := fun t =>
      if t = "AT1" then some exampleStoredReq else none }

/-- A concrete user-info source used by witnesses: returns no claims. -/
def exampleUserinfo : Userinfo :=
  { get_claims_for := fun _ _ => .onil }

/-- A schema-valid request for an unknown client, used to witness the
validator pipeline short-circuiting at the second validator. -/
def exampleReqUnknownClient : AuthnReq :=
  { client_id := some "cX"
    redirect_uri := some "https://rp.example.com/cb"
    response_type := some ["code"]
    scope := some ["openid"] }

/-- A valid request whose `claims` parameter asks for
`{"id_token": {"sub": {"value": "sub1"}}}`, the standard OIDC encoding
of a requested subject identifier, where `sub1` is exactly the subject
identifier the example state derives. -/
def exampleReqSubMatch : AuthnReq :=
  { client_id := some "c1"
    redirect_uri := some "https://rp.example.com/cb"
    response_type := some ["id_token"]
    scope := some ["openid"]
    claims := some (JObj.ocons "id_token"
      (.jobj (JObj.ocons "sub" (.jobj (JObj.ocons "value" (.jstr "sub1") .onil)) .onil))
      .onil) }

/-- A valid `id_token`-flow request that carries an empty `nonce`
parameter, used together with advancing clock readings to refute the
literal C1 claim. -/
def exampleReqEmptyNonce : AuthnReq :=
  { client_id := some "c1"
    redirect_uri := some "https://rp.example.com/cb"
    response_type := some ["id_token"]
    scope := some ["openid"]
    nonce := some "" }

/-- A token request exchanging code `AC1` with the redirect URI of the
original authorization request. -/
def exampleTokenReq : TokenReq :=
  { grant_type := some "authorization_code"
    code := some "AC1"
    redirect_uri := some "https://rp.example.com/cb"
    client_id := some "c1" }

/-- The same token request with a redirect URI differing from the one
of the original authorization request. -/
def exampleTokenReqBad : TokenReq :=
  { grant_type := some "authorization_code"
    code := some "AC1"
    redirect_uri := some "https://evil.example/cb"
    client_id := some "c1" }

/-- A hybrid-flow request (`code id_token token`) with `nonce` and
`state`, used to witness the ID-Token payload invariants. -/
def exampleReqHybrid : AuthnReq :=
  { client_id := some "c1"
    redirect_uri := some "https://rp.example.com/cb"
    response_type := some ["code", "id_token", "token"]
    scope := some ["openid"]
    state := some "xyz"
    nonce := some "n9" }

/-- The ID Token `authorize` mints for `exampleReqHybrid` with both
clock readings at 5. -/
def exampleHybridIdToken : SignedIdToken :=
  { payload :=
      .ocons "iss" (.jstr "https://op.example.com")
        (.ocons "sub" (.jstr "sub1")
          (.ocons "aud" (.jstr "c1")
            (.ocons "iat" (.jnum 5)
              (.ocons "exp" (.jnum 3605)
                (.ocons "c_hash" (.jstr "LH")
                  (.ocons "at_hash" (.jstr "LH")
                    (.ocons "nonce" (.jstr "n9") .onil)))))))
    alg := "RS256" }

/-- The full authorization response for `exampleReqHybrid`. -/
def exampleHybridResp : AuthzResponse :=
  { code := some "AC1"
    access_token := some "AT1"
    token_type := some "Bearer"
    expires_in := some 3600
    id_token := some exampleHybridIdToken
    state := some "xyz" }

/-- The ID Token `authorize` mints for `exampleReqEmptyNonce` when the
clock advances from 5 to 6 between the two `time.time()` readings:
`iat = 5` but `exp = 6 + 3600`, and no `nonce` entry. -/
def exampleEmptyNonceIdToken : SignedIdToken :=
  { payload :=
      .ocons "iss" (.jstr "https://op.example.com")
        (.ocons "sub" (.jstr "sub1")
          (.ocons "aud" (.jstr "c1")
            (.ocons "iat" (.jnum 5)
              (.ocons "exp" (.jnum 3606) .onil))))
    alg := "RS256" }

/-- The authorization response for `exampleReqEmptyNonce`. -/
def exampleEmptyNonceResp : AuthzResponse :=
  { id_token := some exampleEmptyNonceIdToken }

/-- The keys of the dict are pairwise distinct.  Dicts built with
`set`/`update` from the empty dict always satisfy this. -/
def JObj.NodupKeys (d : JObj) : Prop := d.keys.Nodup

/-- Induction principle for `JObj` alone (the mutual recursor's second
motive specialised away): these dict lemmas never descend into the
stored values. -/
def JObj.inductionOn {motive : JObj → Prop} (d : JObj) (onil : motive .onil)
    (ocons : ∀ (k : String) (v : JVal) (rest : JObj), motive rest → motive (.ocons k v rest)) :
    motive d :=
  match d with
  | .onil => onil
  | .ocons k v rest => ocons k v rest (JObj.inductionOn rest onil ocons)

theorem JObj.get?_set (d : JObj) (k : String) (v : JVal) (k' : String) :
    (d.set k v).get? k' = if k = k' then some v else d.get? k' := by
  induction d using JObj.inductionOn with
  | onil => simp only [JObj.set, JObj.get?]
  | ocons a b rest ih =>
      by_cases hak : a = k
      · subst hak
        simp only [JObj.set, if_pos rfl, JObj.get?]
        by_cases h : a = k' <;> simp [h]
      · simp only [JObj.set, if_neg hak, JObj.get?, ih]
        by_cases h1 : a = k'
        · by_cases h2 : k = k'
          · exact absurd (h1.trans h2.symm) hak
          · simp [h1, h2]
        · simp [h1]

theorem JObj.hasKey_set (d : JObj) (k : String) (v : JVal) (k' : String) :
    (d.set k v).hasKey k' = (k = k' || d.hasKey k') := by
  simp only [JObj.hasKey, JObj.get?_set]
  by_cases h : k = k' <;> simp [h]

theorem JObj.get?_update_of_none (d u : JObj) (k : String) (hu : u.get? k = none) :
    (d.update u).get? k = d.get? k := by
  induction u using JObj.inductionOn generalizing d with
  | onil => simp [JObj.update]
  | ocons a b rest ih =>
      simp only [JObj.get?] at hu
      by_cases hak : a = k
      · simp [hak] at hu
      · simp only [if_neg hak] at hu
        simp only [JObj.update, ih _ hu, JObj.get?_set, if_neg hak]

theorem JObj.hasKey_update (d u : JObj) (k : String) :
    (d.update u).hasKey k = (d.hasKey k || u.hasKey k) := by
  induction u using JObj.inductionOn generalizing d with
  | onil => simp [JObj.update, JObj.hasKey, JObj.get?]
  | ocons a b rest ih =>
      simp only [JObj.update, ih, JObj.hasKey_set]
      simp only [JObj.hasKey, JObj.get?]
      by_cases hak : a = k <;> simp [hak]

theorem JObj.hasKey_iff_mem_keys (d : JObj) (k : String) :
    d.hasKey k = true ↔ k ∈ d.keys := by
  induction d using JObj.inductionOn with
  | onil => simp [JObj.hasKey, JObj.get?, JObj.keys]
  | ocons a b rest ih =>
      simp only [JObj.hasKey, JObj.get?, JObj.keys, List.mem_cons]
      by_cases hak : a = k
      · simp [hak]
      · simp only [if_neg hak, ← ih, JObj.hasKey]
        constructor
        · intro h; exact Or.inr h
        · intro h
          cases h with
          | inl h => exact absurd h.symm hak
          | inr h => exact h

theorem JObj.keys_set (d : JObj) (k : String) (v : JVal) :
    (d.set k v).keys = if d.hasKey k then d.keys else d.keys ++ [k] := by
  induction d using JObj.inductionOn with
  | onil => simp [JObj.set, JObj.keys, JObj.hasKey, JObj.get?]
  | ocons a b rest ih =>
      by_cases hak : a = k
      · subst hak
        simp [JObj.set, JObj.keys, JObj.hasKey, JObj.get?]
      · simp only [JObj.set, if_neg hak, JObj.keys, ih]
        simp only [JObj.hasKey, JObj.get?, if_neg hak]
        by_cases h : (JObj.get? rest k).isSome <;> simp [JObj.hasKey, h]

theorem JObj.nodupKeys_set (d : JObj) (k : String) (v : JVal) (hd : d.NodupKeys) :
    (d.set k v).NodupKeys := by
  unfold JObj.NodupKeys at hd ⊢
  rw [JObj.keys_set]
  by_cases h : d.hasKey k
  · simp [h, hd]
  · have hif : (if d.hasKey k then d.keys else d.keys ++ [k]) = d.keys ++ [k] := by simp [h]
    rw [hif, List.nodup_append]
    refine ⟨hd, List.nodup_singleton k, ?_⟩
    intro a ha hb
    simp only [List.mem_singleton] at hb
    subst hb
    exact h ((JObj.hasKey_iff_mem_keys d a).mpr ha)

theorem JObj.nodupKeys_update (d u : JObj) (hd : d.NodupKeys) :
    (d.update u).NodupKeys := by
  induction u using JObj.inductionOn generalizing d with
  | onil => exact hd
  | ocons a b rest ih => exact ih _ (JObj.nodupKeys_set d a b hd)

theorem JObj.nodupKeys_onil : JObj.NodupKeys .onil := by
  simp [JObj.NodupKeys, JObj.keys]

theorem JObj.get?_eq_none_of_not_mem_keys (d : JObj) (k : String) (h : k ∉ d.keys) :
    d.get? k = none := by
  cases hk : d.hasKey k
  · simpa [JObj.hasKey, Option.isSome_iff_exists] using hk
  · exact absurd ((JObj.hasKey_iff_mem_keys d k).mp hk) h

theorem JObj.get?_update_of_nodup_some (d u : JObj) (k : String) (v : JVal)
    (hnd : u.NodupKeys) (hu : u.get? k = some v) :
    (d.update u).get? k = some v := by
  induction u using JObj.inductionOn generalizing d with
  | onil => simp [JObj.get?] at hu
  | ocons a b rest ih =>
      unfold JObj.NodupKeys at hnd
      simp only [JObj.keys, List.nodup_cons] at hnd
      simp only [JObj.get?] at hu
      by_cases hak : a = k
      · subst hak
        rw [if_pos rfl] at hu
        cases hu
        simp only [JObj.update]
        rw [JObj.get?_update_of_none _ _ _ (JObj.get?_eq_none_of_not_mem_keys rest a hnd.1)]
        simp [JObj.get?_set]
      · simp only [if_neg hak] at hu
        simp only [JObj.update]
        exact ih _ hnd.2 hu

theorem runValidators_first_error (validators : List (AuthnReq → Except PErr Unit))
    (authentication_request : AuthnReq) (i : Nat) (vi : AuthnReq → Except PErr Unit)
    (e : PErr) (hget : validators.get? i = some vi)
    (herr : vi authentication_request = .error e)
    (hpass : ∀ v ∈ validators.take i, v authentication_request = .ok ()) :
    runValidators validators authentication_request = .error e := by
  induction validators generalizing i with
  | nil => simp at hget
  | cons v rest ih =>
      cases i with
      | zero =>
          simp only [List.get?] at hget
          cases hget
          simp [runValidators, herr]
      | succ n =>
          simp only [List.get?] at hget
          have hv : v authentication_request = .ok () := by
            apply hpass
            simp [List.take]
          simp only [runValidators, hv]
          exact ih n hget (fun w hw => hpass w (by simp [List.take, hw]))

/-- C10: `to_error_url` returns `None` whenever the parsed request
lacks `redirect_uri` or the error carries no `oauth_error`, whatever
the other fields hold; when both are present (and nonempty) it indexes
the parsed request's `response_type` to choose the encoding, so an
`InvalidAuthenticationRequest` for a request with `redirect_uri` and
an `oauth_error` but no `response_type` raises `KeyError` instead of
being converted to an error URL. -/
theorem to_error_url_field_dependencies (e : InvalidAuthnReq) :
    ((e.request.redirect_uri = none ∨ e.oauth_error = none) → e.to_error_url = .ok none) ∧
    (∀ r oe, e.request.redirect_uri = some r → r ≠ "" → e.oauth_error = some oe → oe ≠ "" →
       e.request.response_type = none → e.to_error_url = .error .keyError) := by
  constructor
  · intro h
    rcases h with h | h
    · cases ho : e.oauth_error <;> simp [InvalidAuthnReq.to_error_url, h, ho]
    · cases hr : e.request.redirect_uri <;> simp [InvalidAuthnReq.to_error_url, h, hr]
  · intro r oe hr hrne hoe hoene hrt
    simp [InvalidAuthnReq.to_error_url, hr, hoe, hrne, hoene, should_fragment_encode, hrt]

/-- Witness for C10 at concrete errors: one lacking `oauth_error`, one
with `redirect_uri` and `oauth_error` but no `response_type`. -/
theorem to_error_url_field_dependencies_witness :
    (InvalidAuthnReq.mk "m" {} none).to_error_url = .ok none ∧
    (InvalidAuthnReq.mk "m" { redirect_uri := some "https://rp.example.com/cb" }
        (some "invalid_request")).to_error_url = .error .keyError :=
  ⟨(to_error_url_field_dependencies _).1 (Or.inr rfl),
   (to_error_url_field_dependencies _).2 _ _ rfl (by decide) rfl (by decide) rfl⟩

/-- C3 counterexample: `to_error_url` synthesizes a redirect-back URL
for a redirect URI that is not registered for the client (the function
never consults the registry), refuting the claimed "iff ... the
redirect URI is registered for the client". -/
theorem to_error_url_claim_counterexample :
    (InvalidAuthnReq.mk "bad request"
        (AuthnReq.mk (some "c1") (some "https://evil.example/cb") (some ["code"])
          none none none none)
        (some "invalid_request")).to_error_url =
      .ok (some (ErrorUrl.mk "https://evil.example/cb" false "invalid_request" "bad request")) ∧
    spec_redirect_uri_registered exampleClients
      (AuthnReq.mk (some "c1") (some "https://evil.example/cb") (some ["code"])
        none none none none) = false := by
  decide

/-- C3 (amended): `to_error_url` returns a redirect-back URL carrying
`error` and `error_message` iff the parsed request's `redirect_uri` is
present and nonempty and an (nonempty) `oauth_error` is set — whether
the redirect URI is registered for the client is not consulted; in
every other case it returns `None`, except that building the URL also
indexes `response_type`, raising `KeyError` when that parameter is
absent. -/
theorem to_error_url_characterization (e : InvalidAuthnReq) :
    (e.to_error_url = .ok none ↔
      ¬(optStrTruthy e.request.redirect_uri = true ∧ optStrTruthy e.oauth_error = true)) ∧
    (∀ r oe rt, e.request.redirect_uri = some r → r ≠ "" →
       e.oauth_error = some oe → oe ≠ "" → e.request.response_type = some rt →
       e.to_error_url =
         .ok (some (ErrorUrl.mk r (if rt = ["code"] then false else true) oe e.message))) := by
  constructor
  · cases hr : e.request.redirect_uri with
    | none => cases ho : e.oauth_error <;> simp [InvalidAuthnReq.to_error_url, hr, ho, optStrTruthy]
    | some r =>
        cases ho : e.oauth_error with
        | none => simp [InvalidAuthnReq.to_error_url, hr, ho, optStrTruthy]
        | some oe =>
            by_cases hre : r = ""
            · subst hre
              simp [InvalidAuthnReq.to_error_url, hr, ho, optStrTruthy]
            · by_cases hoe : oe = ""
              · subst hoe
                simp [InvalidAuthnReq.to_error_url, hr, ho, optStrTruthy]
              · simp only [InvalidAuthnReq.to_error_url, hr, ho, optStrTruthy]
                rw [if_pos ⟨hre, hoe⟩]
                cases hrt : e.request.response_type with
                | none => simp [should_fragment_encode, hrt, hre, hoe]
                | some rt =>
                    by_cases hc : rt = ["code"] <;>
                      simp [should_fragment_encode, hrt, hre, hoe, hc]
  · intro r oe rt hr hre hoe hoene hrt
    simp only [InvalidAuthnReq.to_error_url, hr, hoe]
    rw [if_pos ⟨hre, hoene⟩]
    by_cases hc : rt = ["code"] <;> simp [should_fragment_encode, hrt, hc]

/-- Witness for C3 (amended): a schema failure with a present (but
unregistered) redirect URI yields a concrete query-encoded error URL. -/
theorem to_error_url_characterization_witness :
    (InvalidAuthnReq.mk "bad request"
        (AuthnReq.mk (some "c1") (some "https://evil.example/cb") (some ["code"])
          none none none none)
        (some "invalid_request")).to_error_url =
      .ok (some (ErrorUrl.mk "https://evil.example/cb"
        (if ["code"] = ["code"] then false else true) "invalid_request" "bad request")) :=
  (to_error_url_characterization _).2 _ _ _ rfl (by decide) rfl (by decide) rfl

/-- C5 counterexample: a request whose response-type list is
`["code", "code"]` has response-type set `{code}` (it is set-equal to
`["code"]`), yet `should_fragment_encode` selects fragment encoding,
because the source compares the list, not the set. -/
theorem should_fragment_encode_claim_counterexample :
    should_fragment_encode
        (AuthnReq.mk none none (some ["code", "code"]) none none none none) = .ok true ∧
    listSetEq ["code", "code"] ["code"] = true := by
  decide

/-- C5 (amended): `should_fragment_encode` selects query encoding
exactly when the response-type LIST is exactly `["code"]`; for
duplicate-free response-type lists this coincides with the
response-type set being `{code}`; and any error URL built by
`to_error_url` uses exactly this decision for its encoding. -/
theorem should_fragment_encode_characterization (req : AuthnReq) (rt : List String)
    (hrt : req.response_type = some rt) :
    should_fragment_encode req = .ok (if rt = ["code"] then false else true) ∧
    (rt.Nodup → (rt = ["code"] ↔ listSetEq rt ["code"] = true)) ∧
    (∀ (e : InvalidAuthnReq) (u : ErrorUrl), e.request = req →
       e.to_error_url = .ok (some u) →
       u.use_fragment = (if rt = ["code"] then false else true)) := by
  refine ⟨?_, ?_, ?_⟩
  · by_cases hc : rt = ["code"] <;> simp [should_fragment_encode, hrt, hc]
  · intro hnd
    constructor
    · intro h
      subst h
      decide
    · intro h
      simp only [listSetEq, Bool.and_eq_true, List.all_eq_true] at h
      obtain ⟨h1, h2⟩ := h
      have h2' : "code" ∈ rt := by
        have := h2 "code" (by simp)
        simpa using this
      cases rt with
      | nil => simp at h2'
      | cons a tl =>
          have ha : a = "code" := by
            have := h1 a (by simp)
            simpa using this
          subst ha
          cases tl with
          | nil => rfl
          | cons b tl2 =>
              have hb : b = "code" := by
                have := h1 b (by simp)
                simpa using this
              subst hb
              simp at hnd
  · intro e u hreq hurl
    unfold InvalidAuthnReq.to_error_url at hurl
    rw [hreq] at hurl
    cases hrd : req.redirect_uri with
    | none => simp only [hrd] at hurl; simp at hurl
    | some r =>
        cases ho : e.oauth_error with
        | none => simp only [hrd, ho] at hurl; simp at hurl
        | some oe =>
            simp only [hrd, ho] at hurl
            by_cases hcond : r ≠ "" ∧ oe ≠ ""
            · rw [if_pos hcond] at hurl
              simp only [should_fragment_encode, hrt] at hurl
              by_cases hc : rt = ["code"] <;> simp [hc] at hurl <;> simp [hc, ← hurl]
            · rw [if_neg hcond] at hurl
              simp at hurl

/-- Witness for C5 (amended) at a concrete `{code}` request. -/
theorem should_fragment_encode_characterization_witness :
    should_fragment_encode (AuthnReq.mk none none (some ["code"]) none none none none) =
      .ok (if ["code"] = ["code"] then false else true) :=
  (should_fragment_encode_characterization _ ["code"] rfl).1

/-- C8 counterexample: a request with a `claims.userinfo` member whose
response-type list is `["id_token", "id_token"]` — its response-type
set equals `{id_token}` — passes the userinfo-claims validator, because
the source compares the list with `['id_token']`, not the set. -/
theorem userinfo_claims_validator_claim_counterexample :
    userinfo_claims_only_specified_when_access_token_is_issued
        (AuthnReq.mk none none (some ["id_token", "id_token"]) none none none
          (some (JObj.ocons "userinfo" (.jobj .onil) .onil))) = .ok () ∧
    listSetEq ["id_token", "id_token"] ["id_token"] = true ∧
    contains_userinfo_claims_request
        (AuthnReq.mk none none (some ["id_token", "id_token"]) none none none
          (some (JObj.ocons "userinfo" (.jobj .onil) .onil))) = true := by
  decide

/-- C8 (amended): the userinfo-claims validator fails — with an
`InvalidAuthenticationRequest` carrying `oauth_error=invalid_request` —
iff the request contains a `claims.userinfo` member and its
response-type LIST is exactly `["id_token"]`; any other response-type
list passes even with `claims.userinfo` present. -/
theorem userinfo_claims_validator_characterization (req : AuthnReq) (rt : List String)
    (hrt : req.response_type = some rt) :
    (∃ ia, userinfo_claims_only_specified_when_access_token_is_issued req =
             .error (.invalidAuthn ia) ∧ ia.oauth_error = some "invalid_request") ↔
      (contains_userinfo_claims_request req = true ∧ rt = ["id_token"]) := by
  unfold userinfo_claims_only_specified_when_access_token_is_issued
  rw [hrt]
  by_cases hc : rt = ["id_token"]
  · subst hc
    by_cases hu : contains_userinfo_claims_request req <;> simp [hu]
  · simp [hc]

/-- Witness for C8 (amended): with `response_type=['id_token']` and a
`claims.userinfo` member present the validator fails with
`invalid_request`. -/
theorem userinfo_claims_validator_characterization_witness :
    ∃ ia, userinfo_claims_only_specified_when_access_token_is_issued
            (AuthnReq.mk none none (some ["id_token"]) none none none
              (some (JObj.ocons "userinfo" (.jobj .onil) .onil))) =
          .error (.invalidAuthn ia) ∧ ia.oauth_error = some "invalid_request" :=
  (userinfo_claims_validator_characterization _ ["id_token"] rfl).mpr ⟨by decide, rfl⟩

/-- C2: `parse_authentication_request` runs exactly the six validators
assembled in `Provider.__init__`, in the fixed order schema verify →
client known → redirect_uri registered → response_type registered →
userinfo-claims/response-type compatibility → scope support, and the
pipeline short-circuits: whenever every validator before position `i`
passes and the validator at position `i` fails, the parse raises that
validator's error. -/
theorem parse_authentication_request_pipeline (provider : Provider) (req : AuthnReq) :
    authentication_request_validators provider =
      [authorization_request_verify,
       client_id_is_known provider,
       redirect_uri_is_in_registered_redirect_uris provider,
       response_type_is_in_registered_response_types provider,
       userinfo_claims_only_specified_when_access_token_is_issued,
       requested_scope_is_supported provider] ∧
    (∀ (i : Nat) (vi : AuthnReq → Except PErr Unit) (e : PErr),
       (authentication_request_validators provider).get? i = some vi →
       vi req = .error e →
       (∀ v ∈ (authentication_request_validators provider).take i, v req = .ok ()) →
       parse_authentication_request provider req = .error e) := by
  refine ⟨rfl, ?_⟩
  intro i vi e hget herr hpass
  unfold parse_authentication_request
  rw [runValidators_first_error (authentication_request_validators provider) req i vi e
        hget herr hpass]

/-- Witness for C2: a schema-valid request for an unknown client passes
the schema validator and is rejected by the second validator with
`unauthorized_client`. -/
theorem parse_authentication_request_pipeline_witness :
    parse_authentication_request exampleProvider exampleReqUnknownClient =
      .error (.invalidAuthn (InvalidAuthnReq.mk "Unknown client_id" exampleReqUnknownClient
        (some "unauthorized_client"))) :=
  (parse_authentication_request_pipeline exampleProvider exampleReqUnknownClient).2 1 _ _
    rfl (by decide)
    (by
      intro v hv
      simp only [authentication_request_validators, List.take, List.mem_singleton] at hv
      subst hv
      decide)

/-- C4 (code bug): with the standard OIDC claims-parameter encoding
`{"id_token": {"sub": {"value": "sub1"}}}` the source compares the raw
claims-request entry (the object `{"value": "sub1"}`) against the
derived subject-identifier string, so even when the requested value
equals the derived subject identifier (`sub1` here, exactly what
`exampleState` derives) the check — and hence `authorize` — raises
`AuthorizationError`, contradicting the spec's "if set and ≠ derived
sub, fail". -/
theorem subject_identifier_match_code_bug :
    check_subject_identifier_matches_requested exampleReqSubMatch "sub1" =
      .error (.authorizationError "Requested subject identifier could not be matched") ∧
    authorize exampleProvider exampleState exampleUserinfo exampleReqSubMatch "user1"
        .noneE 5 5 =
      .error (.authorizationError "Requested subject identifier could not be matched") := by
  decide

/-- C6: in the authorization-code exchange, once the original
authorization request has been retrieved for the code, a token-request
`redirect_uri` that is not byte-exactly equal to the original request's
`redirect_uri` makes the handler fail with `InvalidTokenRequest`; when
the two are equal the exchange proceeds (the code is actually handed to
`exchange_code_for_token`). -/
theorem code_exchange_redirect_uri_check
    (provider : Provider) (st : AuthzState) (ui : Userinfo) (request : TokenReq)
    (extra : ExtraClaims) (t1 t2 : Nat) (code tru : String) (areq : AuthnReq)
    (oru sub uid : String)
    (hcode : request.code = some code)
    (hred : request.redirect_uri = some tru)
    (hcid : request.client_id.isSome = true)
    (hareq : st.get_authorization_request_for_code code = some areq)
    (horu : areq.redirect_uri = some oru)
    (hsub : st.get_subject_identifier_for_code code = some sub)
    (huid : st.get_user_id_for_subject_identifier sub = some uid) :
    (tru ≠ oru →
       (do_code_exchange provider st ui request extra t1 t2).1 =
         .error (.invalidTokenRequest "Invalid redirect_uri" "invalid_request")) ∧
    (tru = oru →
       Effect.exchangeCodeForToken code ∈ (do_code_exchange provider st ui request extra t1 t2).2) := by
  obtain ⟨cid, hcid'⟩ := Option.isSome_iff_exists.mp hcid
  have hver : token_request_verify request = .ok () := by
    simp [token_request_verify, hcode, hred, hcid']
  constructor
  · intro hne
    simp only [do_code_exchange, hver, hcode, hred, hareq, horu]
    rw [if_pos hne]
  · intro heq
    subst heq
    simp only [do_code_exchange, hver, hcode, hred, hareq, horu]
    rw [if_neg (by simp)]
    simp only [hsub, huid]
    cases hex : st.exchange_code_for_token code with
    | none => simp [hex]
    | some tok =>
        cases hac : areq.client_id with
        | none => simp [hex, hac]
        | some ocid =>
            cases hcs : create_signed_id_token provider ocid sub
                (ui.get_claims_for uid (get_requested_claims_in areq "id_token"))
                areq.nonce none (some tok.value) (resolve_extra extra uid ocid) t1 t2 with
            | error e => simp [hex, hac, hcs]
            | ok idt => simp [hex, hac, hcs]

/-- Witness for C6: exchanging code `AC1` with the matching redirect
URI reaches `exchange_code_for_token`, and with a mismatching one the
handler fails with `InvalidTokenRequest`. -/
theorem code_exchange_redirect_uri_check_witness :
    Effect.exchangeCodeForToken "AC1" ∈
      (do_code_exchange exampleProvider exampleState exampleUserinfo exampleTokenReq
        .noneE 7 7).2 ∧
    (do_code_exchange exampleProvider exampleState exampleUserinfo exampleTokenReqBad
        .noneE 7 7).1 =
      .error (.invalidTokenRequest "Invalid redirect_uri" "invalid_request") :=
  ⟨(code_exchange_redirect_uri_check exampleProvider exampleState exampleUserinfo
      exampleTokenReq .noneE 7 7 "AC1" "https://rp.example.com/cb" exampleStoredReq
      "https://rp.example.com/cb" "sub1" "user1" rfl rfl rfl rfl rfl (by decide) (by decide)).2 rfl,
   (code_exchange_redirect_uri_check exampleProvider exampleState exampleUserinfo
      exampleTokenReqBad .noneE 7 7 "AC1" "https://evil.example/cb" exampleStoredReq
      "https://rp.example.com/cb" "sub1" "user1" rfl rfl rfl rfl rfl (by decide) (by decide)).1
      (by decide)⟩

/-- C9: the redirect-URI comparison happens before
`exchange_code_for_token` is invoked: when the exchange fails with
`InvalidTokenRequest` because of a redirect-URI mismatch, the only
authorization-state call made was retrieving the original request, so
the code has not been consumed and no access or refresh token was
created. -/
theorem code_exchange_mismatch_no_side_effects
    (provider : Provider) (st : AuthzState) (ui : Userinfo) (request : TokenReq)
    (extra : ExtraClaims) (t1 t2 : Nat) (code tru : String) (areq : AuthnReq) (oru : String)
    (hcode : request.code = some code)
    (hred : request.redirect_uri = some tru)
    (hcid : request.client_id.isSome = true)
    (hareq : st.get_authorization_request_for_code code = some areq)
    (horu : areq.redirect_uri = some oru)
    (hne : tru ≠ oru) :
    (do_code_exchange provider st ui request extra t1 t2).1 =
      .error (.invalidTokenRequest "Invalid redirect_uri" "invalid_request") ∧
    (do_code_exchange provider st ui request extra t1 t2).2 =
      [Effect.getAuthorizationRequestForCode code] ∧
    (∀ c, Effect.exchangeCodeForToken c ∉ (do_code_exchange provider st ui request extra t1 t2).2) ∧
    (∀ v, Effect.createRefreshToken v ∉ (do_code_exchange provider st ui request extra t1 t2).2) := by
  obtain ⟨cid, hcid'⟩ := Option.isSome_iff_exists.mp hcid
  have hver : token_request_verify request = .ok () := by
    simp [token_request_verify, hcode, hred, hcid']
  have hres : do_code_exchange provider st ui request extra t1 t2 =
      (.error (.invalidTokenRequest "Invalid redirect_uri" "invalid_request"),
       [Effect.getAuthorizationRequestForCode code]) := by
    simp only [do_code_exchange, hver, hcode, hred, hareq, horu]
    rw [if_pos hne]
  rw [hres]
  refine ⟨rfl, rfl, ?_, ?_⟩ <;> intro x <;> simp

/-- Witness for C9: the mismatching exchange of code `AC1` produces
exactly one state call, the retrieval of the original request. -/
theorem code_exchange_mismatch_no_side_effects_witness :
    (do_code_exchange exampleProvider exampleState exampleUserinfo exampleTokenReqBad
        .noneE 7 7).2 = [Effect.getAuthorizationRequestForCode "AC1"] :=
  (code_exchange_mismatch_no_side_effects exampleProvider exampleState exampleUserinfo
    exampleTokenReqBad .noneE 7 7 "AC1" "https://evil.example/cb" exampleStoredReq
    "https://rp.example.com/cb" rfl rfl rfl rfl rfl (by decide)).2.1

theorem nodupKeys_get_requested_claims_in (req : AuthnReq) (method : String) :
    (get_requested_claims_in req method).NodupKeys := by
  unfold get_requested_claims_in
  split
  · exact JObj.nodupKeys_onil
  · split
    · exact JObj.nodupKeys_update _ _ JObj.nodupKeys_onil
    · exact JObj.nodupKeys_onil

/-- C7: for a userinfo request whose bearer token introspects as
active, the claims requested from the user-info source are exactly
`userinfo_requested_claims` — whose key set is the union of the
scope-derived claims of the token's scope and the original request's
`claims.userinfo` entries, with the per-claim metadata of the
`claims.userinfo` entries retained — and the returned object carries
`sub` equal to the introspection result's `sub`. -/
theorem userinfo_claims_projection
    (provider : Provider) (st : AuthzState) (ui : Userinfo)
    (param auth_hdr : Option String) (tok : String) (insp : Introspection)
    (uid : String) (areq : AuthnReq)
    (hbt : extract_bearer_token_from_http_request param auth_hdr = .ok tok)
    (hintro : st.introspect_access_token tok = some insp)
    (hactive : insp.active = true)
    (huid : st.get_user_id_for_subject_identifier insp.sub = some uid)
    (hareq : st.get_authorization_request_for_access_token tok = some areq)
    (hsub : (ui.get_claims_for uid (userinfo_requested_claims insp.scope areq)).hasKey "sub"
              = false) :
    handle_userinfo_request provider st ui param auth_hdr =
      .ok { sub := insp.sub,
            claims := ui.get_claims_for uid (userinfo_requested_claims insp.scope areq) } ∧
    (∀ k, (userinfo_requested_claims insp.scope areq).hasKey k =
       ((scope2claims (pySplitWhitespace insp.scope)).hasKey k ||
        (get_requested_claims_in areq "userinfo").hasKey k)) ∧
    (∀ k v, (get_requested_claims_in areq "userinfo").get? k = some v →
       (userinfo_requested_claims insp.scope areq).get? k = some v) := by
  refine ⟨?_, ?_, ?_⟩
  · simp only [handle_userinfo_request, hbt, hintro, hactive, huid, hareq, hsub]
    simp
  · intro k
    exact JObj.hasKey_update _ _ k
  · intro k v hv
    exact JObj.get?_update_of_nodup_some _ _ k v (nodupKeys_get_requested_claims_in areq "userinfo") hv

/-- Witness for C7: the concrete state stores
`claims.userinfo = {"email": null}` for token `AT1` of scope
`openid email`. -/
theorem userinfo_claims_projection_witness :
    handle_userinfo_request exampleProvider exampleState exampleUserinfo none
        (some "Bearer AT1") =
      .ok { sub := "sub1",
            claims := exampleUserinfo.get_claims_for "user1"
              (userinfo_requested_claims "openid email" exampleStoredReq) } :=
  (userinfo_claims_projection exampleProvider exampleState exampleUserinfo none
    (some "Bearer AT1") "AT1" (Introspection.mk true "openid email" "sub1") "user1"
    exampleStoredReq (by decide) (by decide) rfl (by decide) (by decide) (by decide)).1

theorem JObj.get?_eq_none_of_hasKey_false (d : JObj) (k : String) (h : d.hasKey k = false) :
    d.get? k = none := by
  cases hg : d.get? k with
  | none => rfl
  | some v => rw [JObj.hasKey, hg] at h; simp at h

theorem JObj.hasKey_eq_false_of_get?_none (d : JObj) (k : String) (h : d.get? k = none) :
    d.hasKey k = false := by
  simp [JObj.hasKey, h]

theorem get?_update_free (args2 user_claims extra : JObj) (k : String)
    (huc : user_claims.get? k = none) (hec : extra.get? k = none) :
    ((args2.update user_claims).update extra).get? k = args2.get? k := by
  rw [JObj.get?_update_of_none _ _ _ hec, JObj.get?_update_of_none _ _ _ huc]

theorem hasKey_update_free (args2 user_claims extra : JObj) (k : String)
    (huc : user_claims.get? k = none) (hec : extra.get? k = none) :
    ((args2.update user_claims).update extra).hasKey k = args2.hasKey k := by
  rw [JObj.hasKey, get?_update_free args2 user_claims extra k huc hec, JObj.hasKey]

theorem get?_withNonce_of_ne (payload0 : JObj) (nonce : Option String) (k : String)
    (hk : ¬("nonce" = k)) :
    (if optStrTruthy nonce then payload0.set "nonce" (.jstr (nonce.getD ""))
     else payload0).get? k = payload0.get? k := by
  by_cases hn : optStrTruthy nonce <;> simp [hn, JObj.get?_set, hk]


theorem id_token_kwargs_hasKey_c_hash (provider : Provider) (hash_alg : String)
    (user_claims : JObj) (code atv : Option String) (extra : JObj)
    (huc : user_claims.get? "c_hash" = none) (hec : extra.get? "c_hash" = none) :
    (id_token_kwargs provider hash_alg user_claims code atv extra).hasKey "c_hash" =
      optStrTruthy code := by
  simp only [id_token_kwargs]
  rw [hasKey_update_free _ _ _ _ huc hec]
  by_cases hc : optStrTruthy code <;> by_cases ha : optStrTruthy atv <;>
    simp [hc, ha, JObj.hasKey_set, JObj.hasKey, JObj.get?]

theorem id_token_kwargs_hasKey_at_hash (provider : Provider) (hash_alg : String)
    (user_claims : JObj) (code atv : Option String) (extra : JObj)
    (huc : user_claims.get? "at_hash" = none) (hec : extra.get? "at_hash" = none) :
    (id_token_kwargs provider hash_alg user_claims code atv extra).hasKey "at_hash" =
      optStrTruthy atv := by
  simp only [id_token_kwargs]
  rw [hasKey_update_free _ _ _ _ huc hec]
  by_cases hc : optStrTruthy code <;> by_cases ha : optStrTruthy atv <;>
    simp [hc, ha, JObj.hasKey_set, JObj.hasKey, JObj.get?]

theorem id_token_kwargs_get?_nonce (provider : Provider) (hash_alg : String)
    (user_claims : JObj) (code atv : Option String) (extra : JObj)
    (huc : user_claims.get? "nonce" = none) (hec : extra.get? "nonce" = none) :
    (id_token_kwargs provider hash_alg user_claims code atv extra).get? "nonce" = none := by
  simp only [id_token_kwargs]
  rw [get?_update_free _ _ _ _ huc hec]
  by_cases hc : optStrTruthy code <;> by_cases ha : optStrTruthy atv <;>
    simp [hc, ha, JObj.get?_set, JObj.get?]

/-- Field characterization of the payload built by
`create_signed_id_token`, provided neither collaborator-supplied claim
map injects the reserved `nonce`/`c_hash`/`at_hash` keys. -/
theorem create_signed_id_token_payload
    (provider : Provider) (client_id sub : String) (user_claims : JObj)
    (nonce code atv : Option String) (extra : JObj) (t1 t2 : Nat) (idt : SignedIdToken)
    (hres : create_signed_id_token provider client_id sub user_claims nonce code atv extra
              t1 t2 = .ok idt)
    (huc : reservedIdTokenKeysFree user_claims)
    (hec : reservedIdTokenKeysFree extra) :
    idt.payload.get? "iss" = some (.jstr provider.conf.issuer) ∧
    idt.payload.get? "aud" = some (.jstr client_id) ∧
    idt.payload.get? "iat" = some (.jnum t1) ∧
    idt.payload.get? "exp" = some (.jnum (t2 + provider.id_token_lifetime)) ∧
    idt.payload.hasKey "nonce" = optStrTruthy nonce ∧
    idt.payload.hasKey "c_hash" = optStrTruthy code ∧
    idt.payload.hasKey "at_hash" = optStrTruthy atv := by
  obtain ⟨huc1, huc2, huc3⟩ := huc
  obtain ⟨hec1, hec2, hec3⟩ := hec
  unfold create_signed_id_token at hres
  cases hmc : lookupClient provider.clients client_id with
  | none => simp only [hmc] at hres; exact absurd hres (by simp)
  | some meta =>
      cases halg : provider.conf.id_token_signing_alg_values_supported with
      | nil => simp only [hmc, halg] at hres; exact absurd hres (by simp)
      | cons a0 algs =>
          simp only [hmc, halg] at hres
          split at hres
          · exact absurd hres (by simp)
          · rename_i hguard
            injection hres with h
            subst h
            simp only [List.any_cons, List.any_nil, Bool.or_eq_true, Bool.or_false] at hguard
            push_neg at hguard
            obtain ⟨hgiss, hgsub, hgaud, hgiat, hgexp⟩ := hguard
            simp only [ne_eq, Bool.not_eq_true] at hgiss hgsub hgaud hgiat hgexp
            refine ⟨?_, ?_, ?_, ?_, ?_, ?_, ?_⟩
            · rw [get?_withNonce_of_ne _ _ _ (by decide),
                  JObj.get?_update_of_none _ _ _ (JObj.get?_eq_none_of_hasKey_false _ _ hgiss)]
              simp [JObj.get?]
            · rw [get?_withNonce_of_ne _ _ _ (by decide),
                  JObj.get?_update_of_none _ _ _ (JObj.get?_eq_none_of_hasKey_false _ _ hgaud)]
              simp [JObj.get?]
            · rw [get?_withNonce_of_ne _ _ _ (by decide),
                  JObj.get?_update_of_none _ _ _ (JObj.get?_eq_none_of_hasKey_false _ _ hgiat)]
              simp [JObj.get?]
            · rw [get?_withNonce_of_ne _ _ _ (by decide),
                  JObj.get?_update_of_none _ _ _ (JObj.get?_eq_none_of_hasKey_false _ _ hgexp)]
              simp [JObj.get?]
            · by_cases hn : optStrTruthy nonce
              · simp [hn, JObj.hasKey_set]
              · rw [if_neg (by simp [hn])]
                rw [JObj.hasKey_update]
                rw [JObj.hasKey_eq_false_of_get?_none _ _
                      (id_token_kwargs_get?_nonce _ _ _ _ _ _ huc1 hec1)]
                simp [hn, JObj.hasKey, JObj.get?]
            · have hstep : ∀ p0 : JObj,
                  (if optStrTruthy nonce then p0.set "nonce" (.jstr (nonce.getD ""))
                   else p0).hasKey "c_hash" = p0.hasKey "c_hash" := by
                intro p0
                by_cases hn : optStrTruthy nonce <;> simp [hn, JObj.hasKey_set]
              rw [hstep, JObj.hasKey_update,
                  id_token_kwargs_hasKey_c_hash _ _ _ _ _ _ huc2 hec2]
              simp [JObj.hasKey, JObj.get?]
            · have hstep : ∀ p0 : JObj,
                  (if optStrTruthy nonce then p0.set "nonce" (.jstr (nonce.getD ""))
                   else p0).hasKey "at_hash" = p0.hasKey "at_hash" := by
                intro p0
                by_cases hn : optStrTruthy nonce <;> simp [hn, JObj.hasKey_set]
              rw [hstep, JObj.hasKey_update,
                  id_token_kwargs_hasKey_at_hash _ _ _ _ _ _ huc3 hec3]
              simp [JObj.hasKey, JObj.get?]

theorem id_token_payload_authorize_aux
    (provider : Provider) (st : AuthzState) (ui : Userinfo) (extra : ExtraClaims)
    (t1 t2 : Nat)
    (hcode_ne : ∀ r s, st.create_authorization_code r s ≠ "")
    (hat_ne : ∀ r s, (st.create_access_token r s).value ≠ "")
    (hui : ∀ u d, reservedIdTokenKeysFree (ui.get_claims_for u d))
    (hex : ∀ u c, reservedIdTokenKeysFree (resolve_extra extra u c))
    (req : AuthnReq) (user_id : String) (resp : AuthzResponse) (tok : SignedIdToken)
    (h5 : authorize provider st ui req user_id extra t1 t2 = .ok resp)
    (h6 : resp.id_token = some tok) :
    ∃ client_id rt, req.client_id = some client_id ∧ req.response_type = some rt ∧
      tok.payload.get? "iss" = some (.jstr provider.conf.issuer) ∧
      tok.payload.get? "aud" = some (.jstr client_id) ∧
      tok.payload.get? "iat" = some (.jnum t1) ∧
      tok.payload.get? "exp" = some (.jnum (t2 + provider.id_token_lifetime)) ∧
      tok.payload.hasKey "nonce" = optStrTruthy req.nonce ∧
      (tok.payload.hasKey "c_hash" = true ↔ "code" ∈ rt) ∧
      (tok.payload.hasKey "at_hash" = true ↔ "token" ∈ rt) := by
  unfold authorize at h5
  cases hcid : req.client_id with
  | none => rw [hcid] at h5; exact absurd h5 (by simp)
  | some client_id =>
  cases hred : req.redirect_uri with
  | none => simp only [hcid, hred] at h5; exact absurd h5 (by simp)
  | some redirect_uri =>
  cases hsubr : create_subject_identifier provider st user_id client_id redirect_uri with
  | error e => simp only [hcid, hred, hsubr] at h5; exact absurd h5 (by simp)
  | ok sub =>
  cases hchk : check_subject_identifier_matches_requested req sub with
  | error e => simp only [hcid, hred, hsubr, hchk] at h5; exact absurd h5 (by simp)
  | ok u =>
  cases hrt : req.response_type with
  | none => simp only [hcid, hred, hsubr, hchk, hrt] at h5; exact absurd h5 (by simp)
  | some rt =>
  simp only [hcid, hred, hsubr, hchk, hrt] at h5
  refine ⟨client_id, rt, rfl, rfl, ?_⟩
  by_cases hidt : "id_token" ∈ rt
  · rw [if_pos hidt] at h5
    have hfinish : ∀ (requested : JObj),
        (match create_signed_id_token provider client_id sub
                (ui.get_claims_for user_id requested) req.nonce
                (if "code" ∈ rt then some (st.create_authorization_code req sub) else none)
                ((if "token" ∈ rt then some (st.create_access_token req sub) else none).map
                  (fun a => a.value))
                (resolve_extra extra user_id client_id) t1 t2 with
          | Except.error e => Except.error e
          | Except.ok idt =>
              Except.ok
                (if req.state.isSome then
                  { (match (if "token" ∈ rt then some (st.create_access_token req sub) else none) with
                     | some a =>
                        add_access_token_to_response
                          { code := (if "code" ∈ rt then
                              some (st.create_authorization_code req sub) else none) } a
                     | none =>
                        { code := (if "code" ∈ rt then
                            some (st.create_authorization_code req sub) else none) }) with
                    id_token := some idt, state := req.state }
                 else
                  { (match (if "token" ∈ rt then some (st.create_access_token req sub) else none) with
                     | some a =>
                        add_access_token_to_response
                          { code := (if "code" ∈ rt then
                              some (st.create_authorization_code req sub) else none) } a
                     | none =>
                        { code := (if "code" ∈ rt then
                            some (st.create_authorization_code req sub) else none) }) with
                    id_token := some idt })) = .ok resp →
        tok.payload.get? "iss" = some (.jstr provider.conf.issuer) ∧
        tok.payload.get? "aud" = some (.jstr client_id) ∧
        tok.payload.get? "iat" = some (.jnum t1) ∧
        tok.payload.get? "exp" = some (.jnum (t2 + provider.id_token_lifetime)) ∧
        tok.payload.hasKey "nonce" = optStrTruthy req.nonce ∧
        (tok.payload.hasKey "c_hash" = true ↔ "code" ∈ rt) ∧
        (tok.payload.hasKey "at_hash" = true ↔ "token" ∈ rt) := by
      intro requested hmatch
      cases hcs : create_signed_id_token provider client_id sub
          (ui.get_claims_for user_id requested) req.nonce
          (if "code" ∈ rt then some (st.create_authorization_code req sub) else none)
          ((if "token" ∈ rt then some (st.create_access_token req sub) else none).map
            (fun a => a.value))
          (resolve_extra extra user_id client_id) t1 t2 with
      | error e => rw [hcs] at hmatch; exact absurd hmatch (by simp)
      | ok idt =>
          rw [hcs] at hmatch
          injection hmatch with hresp
          have htok : tok = idt := by
            subst hresp
            by_cases hst : req.state.isSome <;> by_cases hmt : "token" ∈ rt <;>
              simp [hst, hmt, add_access_token_to_response] at h6 <;>
              exact h6.symm
          subst htok
          obtain ⟨p1, p2, p3, p4, p5, p6, p7⟩ :=
            create_signed_id_token_payload _ _ _ _ _ _ _ _ _ _ _ hcs (hui _ _) (hex _ _)
          refine ⟨p1, p2, p3, p4, p5, ?_, ?_⟩
          · rw [p6]
            by_cases hm : "code" ∈ rt <;> simp [hm, optStrTruthy, hcode_ne req sub]
          · rw [p7]
            by_cases hm : "token" ∈ rt <;> simp [hm, optStrTruthy, hat_ne req sub]
    by_cases hlen : rt.length = 1
    · cases hsc : req.scope with
      | none =>
          rw [if_pos hlen, hsc] at h5
          exact absurd h5 (by simp)
      | some sc =>
          rw [if_pos hlen, hsc] at h5
          exact hfinish _ h5
    · rw [if_neg hlen] at h5
      exact hfinish _ h5
  · rw [if_neg hidt] at h5
    injection h5 with hresp
    subst hresp
    by_cases hst : req.state.isSome <;> by_cases hmt : "token" ∈ rt <;>
      simp [hst, hmt, add_access_token_to_response] at h6

theorem id_token_payload_code_exchange_aux
    (provider : Provider) (st : AuthzState) (ui : Userinfo) (extra : ExtraClaims)
    (t1 t2 : Nat)
    (hexch_ne : ∀ c atok, st.exchange_code_for_token c = some atok → atok.value ≠ "")
    (hui : ∀ u d, reservedIdTokenKeysFree (ui.get_claims_for u d))
    (hex : ∀ u c, reservedIdTokenKeysFree (resolve_extra extra u c))
    (treq : TokenReq) (code : String) (areq : AuthnReq) (resp2 : TokenResponse)
    (tr : List Effect)
    (htc : treq.code = some code)
    (hga : st.get_authorization_request_for_code code = some areq)
    (hres2 : do_code_exchange provider st ui treq extra t1 t2 = (.ok resp2, tr)) :
    ∃ ocid, areq.client_id = some ocid ∧
      resp2.id_token.payload.get? "iss" = some (.jstr provider.conf.issuer) ∧
      resp2.id_token.payload.get? "aud" = some (.jstr ocid) ∧
      resp2.id_token.payload.get? "iat" = some (.jnum t1) ∧
      resp2.id_token.payload.get? "exp" = some (.jnum (t2 + provider.id_token_lifetime)) ∧
      resp2.id_token.payload.hasKey "nonce" = optStrTruthy areq.nonce ∧
      resp2.id_token.payload.hasKey "c_hash" = false ∧
      resp2.id_token.payload.hasKey "at_hash" = true := by
  unfold do_code_exchange at hres2
  cases hver : token_request_verify treq with
  | error e => rw [hver] at hres2; exact absurd hres2 (by simp)
  | ok u =>
  cases hrd : treq.redirect_uri with
  | none => simp only [hver, htc, hrd] at hres2; exact absurd hres2 (by simp)
  | some tru =>
  simp only [hver, htc, hrd, hga] at hres2
  cases horu : areq.redirect_uri with
  | none => simp only [horu] at hres2; exact absurd hres2 (by simp)
  | some oru =>
  simp only [horu] at hres2
  by_cases hne : tru ≠ oru
  · rw [if_pos hne] at hres2; exact absurd hres2 (by simp)
  · rw [if_neg hne] at hres2
    cases hsub2 : st.get_subject_identifier_for_code code with
    | none => simp only [hsub2] at hres2; exact absurd hres2 (by simp)
    | some sub =>
    simp only [hsub2] at hres2
    cases huid2 : st.get_user_id_for_subject_identifier sub with
    | none => simp only [huid2] at hres2; exact absurd hres2 (by simp)
    | some uid =>
    simp only [huid2] at hres2
    cases hexch2 : st.exchange_code_for_token code with
    | none => simp only [hexch2] at hres2; exact absurd hres2 (by simp)
    | some atok =>
    simp only [hexch2] at hres2
    cases hacid : areq.client_id with
    | none => simp only [hacid] at hres2; exact absurd hres2 (by simp)
    | some ocid =>
    simp only [hacid] at hres2
    cases hcs : create_signed_id_token provider ocid sub
        (ui.get_claims_for uid (get_requested_claims_in areq "id_token"))
        areq.nonce none (some atok.value) (resolve_extra extra uid ocid) t1 t2 with
    | error e => simp only [hcs] at hres2; exact absurd hres2 (by simp)
    | ok idt =>
    simp only [hcs] at hres2
    have hidt : resp2.id_token = idt := by
      injection hres2 with h1 h2
      injection h1 with h
      rw [← h]
    obtain ⟨p1, p2, p3, p4, p5, p6, p7⟩ :=
      create_signed_id_token_payload _ _ _ _ _ _ _ _ _ _ _ hcs (hui _ _) (hex _ _)
    rw [hidt]
    refine ⟨ocid, rfl, p1, p2, p3, p4, p5, ?_, ?_⟩
    · rw [p6]; rfl
    · rw [p7]
      simp [optStrTruthy, hexch_ne code atok hexch2]

/-- C1 (amended): for every ID Token issued — by `authorize` or by the
authorization-code exchange — the signed payload has `iss` equal to the
configured issuer, `aud` equal to the `client_id` of the originating
authorization request, `iat` equal to the first clock reading and
`exp` equal to the second clock reading plus the configured
`id_token_lifetime`, so that `exp − iat` exceeds the configured
lifetime by exactly the clock advance between the two `time.time()`
calls (and equals it when the clock does not advance); `nonce` is
present iff the originating request carried a nonempty `nonce`;
`c_hash` is present iff an authorization code was issued together with
the ID Token (never, in the code exchange); and `at_hash` is present
iff an access token was issued together with it (always, in the code
exchange) — provided the user-claims and extra-claims sources do not
inject the reserved `nonce`/`c_hash`/`at_hash` keys and the
authorization state issues nonempty code/token values. -/
theorem id_token_payload_invariants
    (provider : Provider) (st : AuthzState) (ui : Userinfo) (extra : ExtraClaims)
    (t1 t2 : Nat)
    (hmono : t1 ≤ t2)
    (hcode_ne : ∀ r s, st.create_authorization_code r s ≠ "")
    (hat_ne : ∀ r s, (st.create_access_token r s).value ≠ "")
    (hexch_ne : ∀ c atok, st.exchange_code_for_token c = some atok → atok.value ≠ "")
    (hui : ∀ u d, reservedIdTokenKeysFree (ui.get_claims_for u d))
    (hex : ∀ u c, reservedIdTokenKeysFree (resolve_extra extra u c)) :
    (∀ req user_id resp tok,
       authorize provider st ui req user_id extra t1 t2 = .ok resp →
       resp.id_token = some tok →
       ∃ client_id rt, req.client_id = some client_id ∧ req.response_type = some rt ∧
         tok.payload.get? "iss" = some (.jstr provider.conf.issuer) ∧
         tok.payload.get? "aud" = some (.jstr client_id) ∧
         tok.payload.get? "iat" = some (.jnum t1) ∧
         tok.payload.get? "exp" = some (.jnum (t2 + provider.id_token_lifetime)) ∧
         (t2 + provider.id_token_lifetime) - t1 = provider.id_token_lifetime + (t2 - t1) ∧
         tok.payload.hasKey "nonce" = optStrTruthy req.nonce ∧
         (tok.payload.hasKey "c_hash" = true ↔ "code" ∈ rt) ∧
         (tok.payload.hasKey "at_hash" = true ↔ "token" ∈ rt)) ∧
    (∀ treq code areq resp2 tr,
       treq.code = some code →
       st.get_authorization_request_for_code code = some areq →
       do_code_exchange provider st ui treq extra t1 t2 = (.ok resp2, tr) →
       ∃ ocid, areq.client_id = some ocid ∧
         resp2.id_token.payload.get? "iss" = some (.jstr provider.conf.issuer) ∧
         resp2.id_token.payload.get? "aud" = some (.jstr ocid) ∧
         resp2.id_token.payload.get? "iat" = some (.jnum t1) ∧
         resp2.id_token.payload.get? "exp" = some (.jnum (t2 + provider.id_token_lifetime)) ∧
         (t2 + provider.id_token_lifetime) - t1 = provider.id_token_lifetime + (t2 - t1) ∧
         resp2.id_token.payload.hasKey "nonce" = optStrTruthy areq.nonce ∧
         resp2.id_token.payload.hasKey "c_hash" = false ∧
         resp2.id_token.payload.hasKey "at_hash" = true) := by
  constructor
  · intro req user_id resp tok h5 h6
    obtain ⟨client_id, rt, h1, h2, p1, p2, p3, p4, p5, p6, p7⟩ :=
      id_token_payload_authorize_aux provider st ui extra t1 t2 hcode_ne hat_ne hui hex
        req user_id resp tok h5 h6
    exact ⟨client_id, rt, h1, h2, p1, p2, p3, p4, by omega, p5, p6, p7⟩
  · intro treq code areq resp2 tr htc hga hres2
    obtain ⟨ocid, h1, p1, p2, p3, p4, p5, p6, p7⟩ :=
      id_token_payload_code_exchange_aux provider st ui extra t1 t2 hexch_ne hui hex
        treq code areq resp2 tr htc hga hres2
    exact ⟨ocid, h1, p1, p2, p3, p4, by omega, p5, p6, p7⟩

/-- Witness for C1 (amended): the hybrid-flow example request at a
non-advancing clock. -/
theorem id_token_payload_invariants_witness :
    (5 : Nat) ≤ 5 ∧
    (∃ client_id rt,
      exampleReqHybrid.client_id = some client_id ∧
      exampleReqHybrid.response_type = some rt ∧
      exampleHybridIdToken.payload.get? "iss" = some (.jstr exampleProvider.conf.issuer) ∧
      exampleHybridIdToken.payload.get? "aud" = some (.jstr client_id) ∧
      exampleHybridIdToken.payload.get? "iat" = some (.jnum 5) ∧
      exampleHybridIdToken.payload.get? "exp" =
        some (.jnum (5 + exampleProvider.id_token_lifetime)) ∧
      (5 + exampleProvider.id_token_lifetime) - 5 =
        exampleProvider.id_token_lifetime + (5 - 5) ∧
      exampleHybridIdToken.payload.hasKey "nonce" = optStrTruthy exampleReqHybrid.nonce ∧
      (exampleHybridIdToken.payload.hasKey "c_hash" = true ↔ "code" ∈ rt) ∧
      (exampleHybridIdToken.payload.hasKey "at_hash" = true ↔ "token" ∈ rt)) :=
  ⟨le_refl 5,
   (id_token_payload_invariants exampleProvider exampleState exampleUserinfo .noneE 5 5
      (le_refl 5)
      (fun _ _ => by show ("AC1" : String) ≠ ""; decide)
      (fun _ _ => by show ("AT1" : String) ≠ ""; decide)
      (by
        intro c atok h
        simp only [exampleState] at h
        split at h
        · cases h; decide
        · cases h)
      (fun _ _ => by show reservedIdTokenKeysFree .onil; decide)
      (fun _ _ => by show reservedIdTokenKeysFree .onil; decide)).1
     exampleReqHybrid "user1" exampleHybridResp exampleHybridIdToken (by decide) (by decide)⟩

/-- C1 counterexample: issuing an ID Token for a request carrying an
(empty) `nonce` while the clock advances from 5 to 6 between the two
`time.time()` readings yields a signed payload with
`exp − iat = 3601 ≠ 3600 = id_token_lifetime` and no `nonce` entry even
though the originating request carried the `nonce` parameter — the
source reads the clock separately for `iat` and `exp` and drops falsy
nonces, refuting the claim as stated. -/
theorem id_token_payload_claim_counterexample :
    authorize exampleProvider exampleState exampleUserinfo exampleReqEmptyNonce "user1"
        .noneE 5 6 = .ok exampleEmptyNonceResp ∧
    exampleEmptyNonceResp.id_token = some exampleEmptyNonceIdToken ∧
    exampleReqEmptyNonce.nonce.isSome = true ∧
    exampleProvider.id_token_lifetime = 3600 ∧
    exampleEmptyNonceIdToken.payload.get? "iat" = some (.jnum 5) ∧
    exampleEmptyNonceIdToken.payload.get? "exp" = some (.jnum 3606) ∧
    exampleEmptyNonceIdToken.payload.hasKey "nonce" = false := by
  decide
